import Mathlib

/-!
Shallow embedding of the spatial query and summarization engine of
`bioweb.py`: geodesic distance and bearing classification, radius
filtering, the bat dual-detection expansion counting rule, per-species
nearest-record search over time windows, and the herpetofauna
aggregation with threat-status join and fixed-priority sorting.

Conventions of the embedding:
* pandas data frames become Lean lists of records; a column access
  becomes a field access;
* the geodesic distance to the query origin (computed by the external
  geopy library at `df.apply(lambda row: geodesic(user_coords, ...).km)`)
  is abstracted as a function parameter `dist : ℚ × ℚ → ℚ` mapping a
  record's `(latitude, longitude)` to its `distance_km` value, and the
  direction string `calculate_direction(user_coords, coords)` likewise as
  `dirOf : ℚ × ℚ → String`; the processing logic proved about here never
  inspects these beyond applying them, exactly as the source does;
* timestamps become integers in `yyyymmdd` form, so that the source's
  date-window comparisons (`>= 2018-01-01`, `<= 2023-12-31`) become
  integer comparisons against `20180101` and `20231231`;
* floating point numbers become rationals.
-/

namespace Bioweb

/-- One row of the bat data frame after the loader's preprocessing
(`Latitude`/`Longitude` present, `date` parsed, `roost` coerced to an
integer with missing values filled by 0, `batspecies` present). -/
structure BatRecord where
  batspecies : String
  latitude : ℚ
  longitude : ℚ
  date : ℤ
  roost : ℤ
deriving DecidableEq

/-- The compound species label for a record in which both bat species
were detected (`'Both species detected'` in the source). -/
def bothSpecies : String := "Both species detected"

/-- The bat counts dictionary built by `process_bat_data` (source lines
535-543). -/
structure BatCounts where
  total_events : ℕ
  positive_detections : ℕ
  chalinolobus_tuberculatus : ℕ
  mystacina_tuberculata : ℕ
  unknown_bat_species : ℕ
  chalinolobus_tuberculatus_roosts : ℕ
  mystacina_tuberculata_roosts : ℕ
deriving DecidableEq

/-- `df[df['distance_km'] <= radius_km]` — the radius restriction used at
source lines 533 and 623, with the per-record distance given by `d`. -/
def radiusFilter {α : Type} (d : α → ℚ) (records : List α) (radius : ℚ) : List α :=
  records.filter (fun r => decide (d r ≤ radius))

/-- The dual-detection expansion (source lines 519-531): records labeled
`'Both species detected'` are replaced, in the counting view only, by two
copies labeled with each real species; all other records pass through.
The source builds `pd.concat([df[~both_species_mask], chalinolobus_df,
mystacina_df])`; when no record carries the compound label this is the
unchanged frame, which coincides with the formula below. -/
def expandBoth (records : List BatRecord) : List BatRecord :=
  records.filter (fun r => decide (r.batspecies ≠ bothSpecies))
    ++ (records.filter (fun r => decide (r.batspecies = bothSpecies))).map
        (fun r => { r with batspecies := "Chalinolobus tuberculatus" })
    ++ (records.filter (fun r => decide (r.batspecies = bothSpecies))).map
        (fun r => { r with batspecies := "Mystacina tuberculata" })

/-- The distance of a record to the query origin, via the abstracted
distance function. -/
def bdist (dist : ℚ × ℚ → ℚ) (r : BatRecord) : ℚ := dist (r.latitude, r.longitude)

/-- The `bat_counts` dictionary of `process_bat_data` (source lines
533-543): all seven counts are taken over the expanded view restricted to
the query radius. -/
def bat_counts (dist : ℚ × ℚ → ℚ) (records : List BatRecord) (radius_km : ℤ) : BatCounts :=
  let radius_df := radiusFilter (bdist dist) (expandBoth records) (radius_km : ℚ)
  { total_events := radius_df.length
    positive_detections :=
      (radius_df.filter (fun r => decide (r.batspecies ≠ "No bat species detected"))).length
    chalinolobus_tuberculatus :=
      (radius_df.filter (fun r => decide (r.batspecies = "Chalinolobus tuberculatus"))).length
    mystacina_tuberculata :=
      (radius_df.filter (fun r => decide (r.batspecies = "Mystacina tuberculata"))).length
    unknown_bat_species :=
      (radius_df.filter (fun r => decide (r.batspecies = "Unknown bat species"))).length
    chalinolobus_tuberculatus_roosts :=
      (radius_df.filter
        (fun r => decide (r.batspecies = "Chalinolobus tuberculatus" ∧ r.roost = 1))).length
    mystacina_tuberculata_roosts :=
      (radius_df.filter
        (fun r => decide (r.batspecies = "Mystacina tuberculata" ∧ r.roost = 1))).length }

end Bioweb

namespace Bioweb

lemma expandBoth_append (a b : List BatRecord) :
    (expandBoth (a ++ b)).Perm (expandBoth a ++ expandBoth b) := by
  rw [List.perm_iff_count]
  intro x
  simp only [expandBoth, List.filter_append, List.map_append, List.count_append]
  ring

lemma expandBoth_single_both (r : BatRecord) (hs : r.batspecies = bothSpecies) :
    expandBoth [r] = [{ r with batspecies := "Chalinolobus tuberculatus" },
                      { r with batspecies := "Mystacina tuberculata" }] := by
  simp [expandBoth, hs]

lemma expandBoth_single_other (r : BatRecord) (hs : r.batspecies ≠ bothSpecies) :
    expandBoth [r] = [r] := by
  simp [expandBoth, hs]

lemma expandBoth_middle (l1 l2 : List BatRecord) (r : BatRecord) :
    (expandBoth (l1 ++ r :: l2)).Perm (expandBoth [r] ++ expandBoth (l1 ++ l2)) := by
  rw [show l1 ++ r :: l2 = l1 ++ ([r] ++ l2) by simp]
  rw [List.perm_iff_count]
  intro x
  simp only [expandBoth, List.filter_append, List.map_append, List.count_append]
  ring

/-- Python's banker's rounding (round-half-even) of `10 * q` to an
integer, used to model the one-decimal float rendering below.  Computed
on the numerator and denominator with integer floor division so that the
definition evaluates by kernel reduction. -/
def roundTenthsHalfEven (q : ℚ) : ℤ :=
  let n := 10 * q.num
  let d := (q.den : ℤ)
  let f := Int.fdiv n d
  let r := n - f * d
  if 2 * r < d then f
  else if d < 2 * r then f + 1
  else if f % 2 = 0 then f else f + 1

/-- Models the source's one-decimal distance rendering `f"{d:.1f}"`
(round-half-even to one decimal; distances are nonnegative, the negative
branch is for totality only). -/
def formatKm (x : ℚ) : String :=
  let n := roundTenthsHalfEven x
  if n < 0 then "-" ++ toString ((-n) / 10) ++ "." ++ toString ((-n) % 10)
  else toString (n / 10) ++ "." ++ toString (n % 10)

/-- `subset_df.loc[subset_df['distance_km'].idxmin()]`: the first record
achieving the minimum of `d`, `none` on an empty frame (the source
branches on emptiness before calling `idxmin`). -/
def minDistRecord {α : Type} (d : α → ℚ) : List α → Option α
  | [] => none
  | r :: rs =>
    match minDistRecord d rs with
    | none => some r
    | some m => if d r ≤ d m then some r else some m

/-- The `get_nearest_info` helper of `process_bat_data` (source lines
558-568): optionally restrict to roosts, then report the minimum-distance
record as `"{distance:.1f} km {direction}"`, or a `"No records/roosts
found"` message suffixed with the date-range label. -/
def get_nearest_info (dist : ℚ × ℚ → ℚ) (dirOf : ℚ × ℚ → String)
    (subset : List BatRecord) (roostOnly : Bool) (dateRangeStr : String) : String :=
  let subset2 := if roostOnly then subset.filter (fun r => decide (r.roost = 1)) else subset
  match minDistRecord (bdist dist) subset2 with
  | none => "No " ++ (if roostOnly then "roosts" else "records") ++ " found" ++ dateRangeStr
  | some nearest =>
      formatKm (bdist dist nearest) ++ " km " ++ dirOf (nearest.latitude, nearest.longitude)

/-- Date-window restriction `lo <= date <= hi` (both ends inclusive, as
in the source's `>= start_date` and `<= end_date_2023` masks). -/
def dateWindowBat (lo hi : ℤ) (records : List BatRecord) : List BatRecord :=
  records.filter (fun r => decide (lo ≤ r.date ∧ r.date ≤ hi))

/-- One row of the bat summary table (source lines 589-597). -/
structure BatSummaryRow where
  species : String
  all_time_nearest_record : String
  all_time_nearest_roost : String
  nearest_record_2018_2023 : String
  nearest_roost_2018_2023 : String
  nearest_record_2013_2023 : String
  nearest_roost_2013_2023 : String
deriving DecidableEq

/-- The per-species summary row built in the loop at source lines
554-597.  Note `species_full_df = df[df['batspecies'] == species]` is
taken from the original, un-expanded frame. -/
def batSummaryRow (dist : ℚ × ℚ → ℚ) (dirOf : ℚ × ℚ → String)
    (records : List BatRecord) (species : String) : BatSummaryRow :=
  let species_full_df := records.filter (fun r => decide (r.batspecies = species))
  let past_5_years_df := dateWindowBat 20180101 20231231 species_full_df
  let past_10_years_df := dateWindowBat 20130101 20231231 species_full_df
  { species := species
    all_time_nearest_record := get_nearest_info dist dirOf species_full_df false ""
    all_time_nearest_roost := get_nearest_info dist dirOf species_full_df true ""
    nearest_record_2018_2023 := get_nearest_info dist dirOf past_5_years_df false " for 2018-2023"
    nearest_roost_2018_2023 := get_nearest_info dist dirOf past_5_years_df true " for 2018-2023"
    nearest_record_2013_2023 := get_nearest_info dist dirOf past_10_years_df false " for 2013-2023"
    nearest_roost_2013_2023 := get_nearest_info dist dirOf past_10_years_df true " for 2013-2023" }

/-- The result of `process_bat_data`: the counts dictionary plus the
summary table (the source also carries the same rows as a data frame for
CSV export). -/
structure BatResult where
  counts : BatCounts
  summary_table : List BatSummaryRow
deriving DecidableEq

/-- `process_bat_data` (source lines 513-616): counts over the expanded
in-radius view, then the per-species summary table for the two real
species plus the unknown-species label when its in-radius count is
nonzero. -/
def process_bat_data (dist : ℚ × ℚ → ℚ) (dirOf : ℚ × ℚ → String)
    (records : List BatRecord) (radius_km : ℤ) : BatResult :=
  let counts := bat_counts dist records radius_km
  let species_list := ["Chalinolobus tuberculatus", "Mystacina tuberculata"] ++
    (if 0 < counts.unknown_bat_species then ["Unknown bat species"] else [])
  { counts := counts
    summary_table := species_list.map (batSummaryRow dist dirOf records) }

/-- Filtered length of the in-radius expanded view, decomposed at an
inserted record. -/
lemma count_radius_expand (p : BatRecord → Bool) (dist : ℚ × ℚ → ℚ) (radius : ℚ)
    (l1 l2 : List BatRecord) (r : BatRecord) :
    ((radiusFilter (bdist dist) (expandBoth (l1 ++ r :: l2)) radius).filter p).length =
      ((radiusFilter (bdist dist) (expandBoth (l1 ++ l2)) radius).filter p).length +
      ((radiusFilter (bdist dist) (expandBoth [r]) radius).filter p).length := by
  have hperm := expandBoth_middle l1 l2 r
  have h2 : (radiusFilter (bdist dist) (expandBoth (l1 ++ r :: l2)) radius).Perm
      (radiusFilter (bdist dist) (expandBoth [r] ++ expandBoth (l1 ++ l2)) radius) :=
    hperm.filter _
  have h3 := (h2.filter p).length_eq
  rw [h3]
  simp [radiusFilter, List.filter_append, Nat.add_comm]

/-- Length of the in-radius expanded view, decomposed at an inserted
record. -/
lemma length_radius_expand (dist : ℚ × ℚ → ℚ) (radius : ℚ)
    (l1 l2 : List BatRecord) (r : BatRecord) :
    (radiusFilter (bdist dist) (expandBoth (l1 ++ r :: l2)) radius).length =
      (radiusFilter (bdist dist) (expandBoth (l1 ++ l2)) radius).length +
      (radiusFilter (bdist dist) (expandBoth [r]) radius).length := by
  have h2 : (radiusFilter (bdist dist) (expandBoth (l1 ++ r :: l2)) radius).Perm
      (radiusFilter (bdist dist) (expandBoth [r] ++ expandBoth (l1 ++ l2)) radius) :=
    (expandBoth_middle l1 l2 r).filter _
  have h3 := h2.length_eq
  rw [h3]
  simp [radiusFilter, List.filter_append, Nat.add_comm]

/-- An in-radius record with the compound label contributes exactly its
two expanded copies to the in-radius expanded view. -/
lemma radiusFilter_expand_single_both (dist : ℚ × ℚ → ℚ) (radius : ℚ) (r : BatRecord)
    (hs : r.batspecies = bothSpecies) (hd : dist (r.latitude, r.longitude) ≤ radius) :
    radiusFilter (bdist dist) (expandBoth [r]) radius =
      [{ r with batspecies := "Chalinolobus tuberculatus" },
       { r with batspecies := "Mystacina tuberculata" }] := by
  rw [expandBoth_single_both r hs]
  simp [radiusFilter, bdist, hd]

/-- An in-radius record with a non-compound label passes through the
expansion unchanged. -/
lemma radiusFilter_expand_single_other (dist : ℚ × ℚ → ℚ) (radius : ℚ) (r : BatRecord)
    (hs : r.batspecies ≠ bothSpecies) (hd : dist (r.latitude, r.longitude) ≤ radius) :
    radiusFilter (bdist dist) (expandBoth [r]) radius = [r] := by
  rw [expandBoth_single_other r hs]
  simp [radiusFilter, bdist, hd]

/-- C1: a bat record labeled "Both species detected" within the query
radius contributes exactly 1 to the `chalinolobus_tuberculatus` count,
exactly 1 to the `mystacina_tuberculata` count and exactly 2 to
`total_events`, relative to the same collection with that record
removed; an otherwise-identical record with any single (non-compound)
species label contributes exactly 1 to `total_events`. -/
theorem bat_both_species_counts (dist : ℚ × ℚ → ℚ) (l1 l2 : List BatRecord)
    (r : BatRecord) (radius_km : ℤ)
    (hs : r.batspecies = "Both species detected")
    (hd : dist (r.latitude, r.longitude) ≤ (radius_km : ℚ)) :
    (bat_counts dist (l1 ++ r :: l2) radius_km).chalinolobus_tuberculatus =
      (bat_counts dist (l1 ++ l2) radius_km).chalinolobus_tuberculatus + 1 ∧
    (bat_counts dist (l1 ++ r :: l2) radius_km).mystacina_tuberculata =
      (bat_counts dist (l1 ++ l2) radius_km).mystacina_tuberculata + 1 ∧
    (bat_counts dist (l1 ++ r :: l2) radius_km).total_events =
      (bat_counts dist (l1 ++ l2) radius_km).total_events + 2 ∧
    ∀ s, s ≠ "Both species detected" →
      (bat_counts dist (l1 ++ { r with batspecies := s } :: l2) radius_km).total_events =
        (bat_counts dist (l1 ++ l2) radius_km).total_events + 1 := by
  have hboth := radiusFilter_expand_single_both dist (radius_km : ℚ) r
    (by simpa [bothSpecies] using hs) hd
  refine ⟨?_, ?_, ?_, ?_⟩
  · simp only [bat_counts]
    rw [count_radius_expand, hboth]
    simp
  · simp only [bat_counts]
    rw [count_radius_expand, hboth]
    simp
  · simp only [bat_counts]
    rw [length_radius_expand, hboth]
    simp
  · intro s hsne
    have hother := radiusFilter_expand_single_other dist (radius_km : ℚ)
      { r with batspecies := s } (by simpa [bothSpecies] using hsne) hd
    simp only [bat_counts]
    rw [length_radius_expand, hother]
    simp

/-- A constant distance function used to instantiate abstract distance
parameters in concrete evaluations. -/
def constDist : ℚ × ℚ → ℚ := fun _ => 0

/-- A constant direction function used to instantiate abstract direction
parameters in concrete evaluations. -/
def constDir : ℚ × ℚ → String := fun _ => "north"

/-- A concrete record carrying the compound dual-detection label. -/
def sampleBothRecord : BatRecord :=
  { batspecies := "Both species detected", latitude := 0, longitude := 0,
    date := 20200601, roost := 0 }

/-- Witness for C1 at a concrete one-record collection. -/
theorem bat_both_species_counts_witness :
    (bat_counts constDist [sampleBothRecord] 25).chalinolobus_tuberculatus =
      (bat_counts constDist [] 25).chalinolobus_tuberculatus + 1 ∧
    (bat_counts constDist [sampleBothRecord] 25).mystacina_tuberculata =
      (bat_counts constDist [] 25).mystacina_tuberculata + 1 ∧
    (bat_counts constDist [sampleBothRecord] 25).total_events =
      (bat_counts constDist [] 25).total_events + 2 ∧
    (bat_counts constDist
        [{ sampleBothRecord with batspecies := "Mystacina tuberculata" }] 25).total_events =
      (bat_counts constDist [] 25).total_events + 1 := by
  have h := bat_both_species_counts constDist [] [] sampleBothRecord 25
    (by decide) (by norm_num [constDist, sampleBothRecord])
  exact ⟨h.1, h.2.1, h.2.2.1, h.2.2.2 "Mystacina tuberculata" (by decide)⟩

/-- C6: radius filtering is monotonic — for every dataset, per-record
distance assignment and pair of radii `R < R'`, every record within
radius `R` is within radius `R'`. -/
theorem radius_filter_monotone {α : Type} (d : α → ℚ) (records : List α) (R R' : ℚ)
    (h : R < R') : ∀ x ∈ radiusFilter d records R, x ∈ radiusFilter d records R' := by
  intro x hx
  simp only [radiusFilter, List.mem_filter, decide_eq_true_eq] at hx ⊢
  exact ⟨hx.1, le_trans hx.2 (le_of_lt h)⟩

/-- Witness for C6 at a concrete dataset and radii 1 < 2. -/
theorem radius_filter_monotone_witness :
    (1 : ℚ) ∈ radiusFilter id [(1 : ℚ), 5] 2 :=
  radius_filter_monotone id [(1 : ℚ), 5] 1 2 (by norm_num) 1 (by decide)

/-- The expanded copies of a compound-labeled record contribute nothing
to a count whose predicate rejects both real-species labels. -/
lemma count_expand_single_both_zero (p : BatRecord → Bool) (dist : ℚ × ℚ → ℚ)
    (radius : ℚ) (r : BatRecord) (hs : r.batspecies = bothSpecies)
    (hc : p { r with batspecies := "Chalinolobus tuberculatus" } = false)
    (hm : p { r with batspecies := "Mystacina tuberculata" } = false) :
    ((radiusFilter (bdist dist) (expandBoth [r]) radius).filter p).length = 0 := by
  rw [expandBoth_single_both r hs, List.length_eq_zero, List.filter_eq_nil_iff]
  intro a ha
  simp only [radiusFilter, List.mem_filter] at ha
  rcases ha with ⟨hmem, -⟩
  simp only [List.mem_cons, List.not_mem_nil, or_false] at hmem
  rcases hmem with rfl | rfl
  · simp [hc]
  · simp [hm]

/-- Inserting a record whose species label differs from `s` does not
change the exact-label filter used by the per-species lookups. -/
lemma filter_species_middle (l1 l2 : List BatRecord) (r : BatRecord) (s : String)
    (hne : r.batspecies ≠ s) :
    (l1 ++ r :: l2).filter (fun x => decide (x.batspecies = s)) =
      (l1 ++ l2).filter (fun x => decide (x.batspecies = s)) := by
  simp [List.filter_append, List.filter_cons, hne]

/-- Inserting a record whose species label differs from `s` leaves the
whole per-species summary row unchanged. -/
lemma batSummaryRow_insert_other (dist : ℚ × ℚ → ℚ) (dirOf : ℚ × ℚ → String)
    (l1 l2 : List BatRecord) (r : BatRecord) (s : String) (hne : r.batspecies ≠ s) :
    batSummaryRow dist dirOf (l1 ++ r :: l2) s = batSummaryRow dist dirOf (l1 ++ l2) s := by
  unfold batSummaryRow
  rw [filter_species_middle l1 l2 r s hne]

/-- C2 counterexample: for the one-record collection holding a single
"Both species detected" record within radius, the record is counted once
for each real species, yet every per-species lookup cell — both species,
all three time windows, records and roosts alike — reports that no
record was found: the per-species lookups filter the original frame by
exact species label, so the compound-labeled record is a candidate for
neither species. -/
theorem bat_both_not_lookup_candidate :
    (process_bat_data constDist constDir [sampleBothRecord] 25).counts.chalinolobus_tuberculatus
        = 1 ∧
    (process_bat_data constDist constDir [sampleBothRecord] 25).counts.mystacina_tuberculata
        = 1 ∧
    (process_bat_data constDist constDir [sampleBothRecord] 25).summary_table =
      [{ species := "Chalinolobus tuberculatus",
         all_time_nearest_record := "No records found",
         all_time_nearest_roost := "No roosts found",
         nearest_record_2018_2023 := "No records found for 2018-2023",
         nearest_roost_2018_2023 := "No roosts found for 2018-2023",
         nearest_record_2013_2023 := "No records found for 2013-2023",
         nearest_roost_2013_2023 := "No roosts found for 2013-2023" },
       { species := "Mystacina tuberculata",
         all_time_nearest_record := "No records found",
         all_time_nearest_roost := "No roosts found",
         nearest_record_2018_2023 := "No records found for 2018-2023",
         nearest_roost_2018_2023 := "No roosts found for 2018-2023",
         nearest_record_2013_2023 := "No records found for 2013-2023",
         nearest_roost_2013_2023 := "No roosts found for 2013-2023" }] := by
  decide

/-- C2 (amended): the dual-detection expansion affects only the
radius-scoped counts; the per-species nearest-record and nearest-roost
lookups search the original un-expanded dataset filtered by exact
species label, so a "Both species detected" record participates in no
per-species lookup — inserting such a record anywhere in the collection
leaves the entire summary table unchanged. -/
theorem bat_expansion_only_affects_counts (dist : ℚ × ℚ → ℚ) (dirOf : ℚ × ℚ → String)
    (l1 l2 : List BatRecord) (r : BatRecord) (radius_km : ℤ)
    (hs : r.batspecies = "Both species detected") :
    (process_bat_data dist dirOf (l1 ++ r :: l2) radius_km).summary_table =
      (process_bat_data dist dirOf (l1 ++ l2) radius_km).summary_table := by
  have hunk : (bat_counts dist (l1 ++ r :: l2) radius_km).unknown_bat_species =
      (bat_counts dist (l1 ++ l2) radius_km).unknown_bat_species := by
    simp only [bat_counts]
    rw [count_radius_expand, count_expand_single_both_zero _ dist _ r
      (by simpa [bothSpecies] using hs) (by simp [hs]) (by simp [hs])]
    simp
  simp only [process_bat_data]
  rw [hunk]
  apply List.map_congr_left
  intro s hmem
  have hne : r.batspecies ≠ s := by
    rw [hs]
    intro heq
    rw [← heq] at hmem
    by_cases hpos : 0 < (bat_counts dist (l1 ++ l2) radius_km).unknown_bat_species
    · rw [if_pos hpos] at hmem
      exact absurd hmem (by decide)
    · rw [if_neg hpos] at hmem
      exact absurd hmem (by decide)
  exact batSummaryRow_insert_other dist dirOf l1 l2 r s hne

/-- Witness for C2's amended theorem at a concrete collection. -/
theorem bat_expansion_only_affects_counts_witness :
    (process_bat_data constDist constDir [sampleBothRecord] 25).summary_table =
      (process_bat_data constDist constDir [] 25).summary_table :=
  bat_expansion_only_affects_counts constDist constDir [] [] sampleBothRecord 25 (by decide)

/-- One row of the herpetofauna data frame after the loader's
preprocessing (coordinates, date, scientific and common name present;
blank `sightingty` already replaced by the sentinel "Undefined"). -/
structure HerpRecord where
  scientific_name : String
  common_name : String
  latitude : ℚ
  longitude : ℚ
  date : ℤ
  sightingty : String
deriving DecidableEq

/-- One row of the threat-status table (`threat_status.csv`), with the
join key column `Current Species Name` already cleaned. -/
structure ThreatEntry where
  currentSpeciesName : String
  taxa : String
  category : String
  status : String
deriving DecidableEq

/-- One element of the `herp_results` list built by
`process_herpetofauna_data` (source lines 724-738). -/
structure HerpRow where
  species : String
  common_name : String
  taxa_group : String
  threat_status_display : String
  category_for_sort : String
  status_for_sort : String
  observation_type_summary : String
  observation_type_csv_summary : String
  total_observations_for_species : ℕ
  most_recent_sighting : String
  all_time : String
  past_5_years : String
  past_10_years : String
deriving DecidableEq

/-- Fixed taxa-group priority order (source line 635). -/
def taxa_order : List String := ["Amphibian", "Reptile", "unknown"]

/-- Fixed threat-category priority order (source line 636). -/
def category_order : List String :=
  ["Threatened", "At Risk", "Not Threatened", "Non-resident Native",
   "Introduced and Naturalised", "Extinct", "unknown"]

/-- Fixed threat-status priority order (source lines 637-641). -/
def status_order : List String :=
  ["Nationally Critical", "Nationally Endangered", "Nationally Vulnerable",
   "Nationally Increasing", "Declining", "Relict", "Uncommon", "Recovering",
   "Migrant", "Vagrant", "Coloniser", "Introduced and Naturalised", "Extinct", "unknown"]

/-- Sort key of a pandas ordered `Categorical` column under
`sort_values(ascending=True)`: the index in the fixed category list, and
the list's length for a value absent from the list (pandas maps such a
value to `NaN`, which sorts after every category). -/
def taxaKey (r : HerpRow) : ℕ := taxa_order.indexOf r.taxa_group

/-- Category sort key, see `taxaKey`. -/
def catKey (r : HerpRow) : ℕ := category_order.indexOf r.category_for_sort

/-- Status sort key, see `taxaKey`. -/
def statKey (r : HerpRow) : ℕ := status_order.indexOf r.status_for_sort

/-- The 4-key composite sort order of
`sort_values(by=['taxa_group', 'category_for_sort', 'status_for_sort',
'species'], ascending=True)` (source lines 754-757), packed as a
lexicographic product. -/
def rowKey (r : HerpRow) : Lex (ℕ × Lex (ℕ × Lex (ℕ × List Char))) :=
  toLex (taxaKey r, toLex (catKey r, toLex (statKey r, r.species.data)))

/-- The row comparison used for sorting the species summary rows. -/
def rowLE (a b : HerpRow) : Prop := rowKey a ≤ rowKey b

instance rowLE.instDecidableRel : DecidableRel rowLE :=
  fun a b => inferInstanceAs (Decidable (rowKey a ≤ rowKey b))

instance rowLE.instIsTotal : IsTotal HerpRow rowLE :=
  ⟨fun a b => le_total (rowKey a) (rowKey b)⟩

instance rowLE.instIsTrans : IsTrans HerpRow rowLE :=
  ⟨fun _ _ _ hab hbc => le_trans hab hbc⟩

/-- The 4-key composite order spelled out: taxa group first, then threat
category, then threat status, then the scientific name as the final
tie-break. -/
def herpCompositeLE (a b : HerpRow) : Prop :=
  taxaKey a < taxaKey b ∨ (taxaKey a = taxaKey b ∧
    (catKey a < catKey b ∨ (catKey a = catKey b ∧
      (statKey a < statKey b ∨ (statKey a = statKey b ∧ a.species ≤ b.species)))))

lemma rowLE_iff (a b : HerpRow) : rowLE a b ↔ herpCompositeLE a b := by
  unfold rowLE herpCompositeLE rowKey
  simp only [Prod.Lex.le_iff, String.le_iff_toList_le, String.toList]

/-- Helper for `firstOccurrences`: values already emitted are skipped. -/
def firstOccurrencesAux (seen : List String) : List String → List String
  | [] => []
  | t :: ts =>
    if t ∈ seen then firstOccurrencesAux seen ts
    else t :: firstOccurrencesAux (t :: seen) ts

/-- Distinct values of a list in first-appearance order, modelling
pandas `unique()` and the value universe of `value_counts()`. -/
def firstOccurrences (l : List String) : List String := firstOccurrencesAux [] l

/-- pandas `value_counts()` over a string column: distinct values with
their multiplicities, stably sorted by descending count. -/
def value_counts (types : List String) : List (String × ℕ) :=
  List.insertionSort (fun a b : String × ℕ => b.2 ≤ a.2)
    ((firstOccurrences types).map (fun t => (t, types.count t)))

/-- Two-digit zero padding for day and month fields. -/
def pad2 (n : ℤ) : String := if n < 10 then "0" ++ toString n else toString n

/-- `strftime("%d/%m/%Y")` on a `yyyymmdd` integer date. -/
def formatDMY (n : ℤ) : String :=
  pad2 (n % 100) ++ "/" ++ pad2 ((n / 100) % 100) ++ "/" ++ toString (n / 10000)

/-- The distance of a herp record to the query origin, via the
abstracted distance function. -/
def hdist (dist : ℚ × ℚ → ℚ) (r : HerpRecord) : ℚ := dist (r.latitude, r.longitude)

/-- The `get_herp_nearest_info` helper (source lines 706-712): report
the minimum-distance record of the subset as
`"{distance:.1f} km {direction}"`, or `"No records found"` suffixed with
the date-range label when the subset is empty. -/
def get_herp_nearest_info (dist : ℚ × ℚ → ℚ) (dirOf : ℚ × ℚ → String)
    (subset : List HerpRecord) (dateRangeStr : String) : String :=
  match minDistRecord (hdist dist) subset with
  | none => "No records found" ++ dateRangeStr
  | some nearest =>
      formatKm (hdist dist nearest) ++ " km " ++ dirOf (nearest.latitude, nearest.longitude)

/-- The per-species summary row built in the loop at source lines
643-738: radius-scoped aggregation, best-effort threat join, and the
time-window lookups over the full (radius-unrestricted) dataset. -/
def herpSummaryRow (dist : ℚ × ℚ → ℚ) (dirOf : ℚ × ℚ → String)
    (threat_status_df : List ThreatEntry) (df : List HerpRecord)
    (radius_df : List HerpRecord) (species_scientific : String) : HerpRow :=
  let species_in_radius_df :=
    radius_df.filter (fun r => decide (r.scientific_name = species_scientific))
  let common_name := (species_in_radius_df.head?).elim "" HerpRecord.common_name
  let total := species_in_radius_df.length
  let threat_info :=
    threat_status_df.find? (fun e => decide (e.currentSpeciesName = species_scientific))
  let observation_types := value_counts (species_in_radius_df.map HerpRecord.sightingty)
  let parts := observation_types.map (fun p => p.1 ++ " (" ++ toString p.2 ++ ")")
  { species := species_scientific
    common_name := common_name
    taxa_group := match threat_info with
      | none => "unknown"
      | some t => t.taxa
    threat_status_display := match threat_info with
      | none => "unknown"
      | some t => if t.category = t.status then t.category else t.category ++ " - " ++ t.status
    category_for_sort := match threat_info with
      | none => "unknown"
      | some t => t.category
    status_for_sort := match threat_info with
      | none => "unknown"
      | some t => t.status
    observation_type_summary :=
      if observation_types.isEmpty then "<b>Total</b> (" ++ toString total ++ ")"
      else String.intercalate ", " parts ++ "<br>&nbsp;<br><b>Total</b> ("
            ++ toString total ++ ")"
    observation_type_csv_summary := String.intercalate ", " parts
    total_observations_for_species := total
    most_recent_sighting := match (species_in_radius_df.map HerpRecord.date).max? with
      | none => "No records found"
      | some d => formatDMY d
    all_time := get_herp_nearest_info dist dirOf species_in_radius_df ""
    past_5_years := get_herp_nearest_info dist dirOf
      ((df.filter (fun r => decide (r.scientific_name = species_scientific))).filter
        (fun r => decide (20180101 ≤ r.date ∧ r.date ≤ 20231231))) " for 2018-2023"
    past_10_years := get_herp_nearest_info dist dirOf
      ((df.filter (fun r => decide (r.scientific_name = species_scientific))).filter
        (fun r => decide (20130101 ≤ r.date ∧ r.date ≤ 20231231))) " for 2013-2023" }

/-- The result of `process_herpetofauna_data`: either the zero-result
message with a zero unique-species count, or the sorted species rows
plus the unique-species count. -/
inductive HerpResult where
  | noRecords (message : String) (unique_species_count : ℕ)
  | results (rows : List HerpRow) (unique_species_count : ℕ)
deriving DecidableEq

/-- `sorted(radius_df['scientific_name'].unique())` (source line 626).
Python compares strings by code points; this is the lexicographic order
on the underlying character lists, which the comparison below uses
directly. -/
def uniqueSpeciesInRadius (dist : ℚ × ℚ → ℚ) (df : List HerpRecord) (radius_km : ℤ) :
    List String :=
  List.insertionSort (fun a b : String => a.data ≤ b.data)
    (firstOccurrences
      ((radiusFilter (hdist dist) df (radius_km : ℚ)).map HerpRecord.scientific_name))

/-- `process_herpetofauna_data` (source lines 618-784). -/
def process_herpetofauna_data (dist : ℚ × ℚ → ℚ) (dirOf : ℚ × ℚ → String)
    (threat_status_df : List ThreatEntry) (df : List HerpRecord) (radius_km : ℤ) :
    HerpResult :=
  let radius_df := radiusFilter (hdist dist) df (radius_km : ℚ)
  let unique_species_in_radius := uniqueSpeciesInRadius dist df radius_km
  if unique_species_in_radius.isEmpty then
    HerpResult.noRecords
      ("No herpetofauna records found within " ++ toString radius_km ++ " km.") 0
  else
    HerpResult.results
      (List.insertionSort rowLE
        (unique_species_in_radius.map (herpSummaryRow dist dirOf threat_status_df df radius_df)))
      unique_species_in_radius.length

/-- Shape of a non-empty herp result: the rows are the sorted per-species
summary rows and the count is the number of unique in-radius species. -/
lemma process_herp_results_eq (dist : ℚ × ℚ → ℚ) (dirOf : ℚ × ℚ → String)
    (threat : List ThreatEntry) (df : List HerpRecord) (radius_km : ℤ)
    (rows : List HerpRow) (n : ℕ)
    (h : process_herpetofauna_data dist dirOf threat df radius_km = HerpResult.results rows n) :
    rows = List.insertionSort rowLE
      ((uniqueSpeciesInRadius dist df radius_km).map
        (herpSummaryRow dist dirOf threat df (radiusFilter (hdist dist) df (radius_km : ℚ)))) ∧
    n = (uniqueSpeciesInRadius dist df radius_km).length := by
  simp only [process_herpetofauna_data] at h
  by_cases he : (uniqueSpeciesInRadius dist df radius_km).isEmpty
  · rw [if_pos he] at h
    exact absurd h (by simp)
  · rw [if_neg he] at h
    injection h with h1 h2
    exact ⟨h1.symm, h2.symm⟩

/-- Every row of a non-empty herp result is the summary row of one of
the unique in-radius species. -/
lemma mem_rows_eq_summaryRow (dist : ℚ × ℚ → ℚ) (dirOf : ℚ × ℚ → String)
    (threat : List ThreatEntry) (df : List HerpRecord) (radius_km : ℤ)
    (rows : List HerpRow) (n : ℕ)
    (h : process_herpetofauna_data dist dirOf threat df radius_km = HerpResult.results rows n)
    (row : HerpRow) (hrow : row ∈ rows) :
    ∃ s, row = herpSummaryRow dist dirOf threat df
      (radiusFilter (hdist dist) df (radius_km : ℚ)) s := by
  obtain ⟨hrows, -⟩ := process_herp_results_eq dist dirOf threat df radius_km rows n h
  subst hrows
  rw [List.mem_insertionSort] at hrow
  obtain ⟨s, -, rfl⟩ := List.mem_map.mp hrow
  exact ⟨s, rfl⟩

/-- The rows of a non-empty herp result are sorted for `rowLE`. -/
lemma herp_rows_sorted (dist : ℚ × ℚ → ℚ) (dirOf : ℚ × ℚ → String)
    (threat : List ThreatEntry) (df : List HerpRecord) (radius_km : ℤ)
    (rows : List HerpRow) (n : ℕ)
    (h : process_herpetofauna_data dist dirOf threat df radius_km = HerpResult.results rows n) :
    List.Sorted rowLE rows := by
  obtain ⟨hrows, -⟩ := process_herp_results_eq dist dirOf threat df radius_km rows n h
  rw [hrows]
  exact List.sorted_insertionSort rowLE _

/-- A value absent from a fixed priority list gets a strictly larger
sort index than every listed value. -/
lemma indexOf_absent_after {l : List String} {v w : String} (hv : v ∉ l) (hw : w ∈ l) :
    l.indexOf w < l.indexOf v := by
  rw [List.indexOf_eq_length.mpr hv]
  exact List.indexOf_lt_length.mpr hw

/-- C4: the species summary rows of every non-empty herp result are
sorted by the 4-key composite — taxa group by the fixed priority order,
then threat category by its fixed priority order, then threat status by
its fixed priority order, then scientific name ascending as the final
tie-break — and, for each of the three fixed lists, any value not in
the list sorts strictly after every listed value (pandas maps it to
`NaN`, placed last like the trailing "unknown" sentinel). -/
theorem herp_rows_sorted_by_composite (dist : ℚ × ℚ → ℚ) (dirOf : ℚ × ℚ → String)
    (threat : List ThreatEntry) (df : List HerpRecord) (radius_km : ℤ)
    (rows : List HerpRow) (n : ℕ)
    (h : process_herpetofauna_data dist dirOf threat df radius_km = HerpResult.results rows n) :
    rows.Pairwise herpCompositeLE ∧
    (∀ v, v ∉ taxa_order → ∀ w ∈ taxa_order, taxa_order.indexOf w < taxa_order.indexOf v) ∧
    (∀ v, v ∉ category_order → ∀ w ∈ category_order,
        category_order.indexOf w < category_order.indexOf v) ∧
    (∀ v, v ∉ status_order → ∀ w ∈ status_order,
        status_order.indexOf w < status_order.indexOf v) := by
  refine ⟨?_, ?_, ?_, ?_⟩
  · exact (herp_rows_sorted dist dirOf threat df radius_km rows n h).imp
      (fun hab => (rowLE_iff _ _).mp hab)
  · intro v hv w hw; exact indexOf_absent_after hv hw
  · intro v hv w hw; exact indexOf_absent_after hv hw
  · intro v hv w hw; exact indexOf_absent_after hv hw

/-- A concrete herp record whose species appears in the concrete threat
table. -/
def sampleHerpRecord : HerpRecord :=
  { scientific_name := "Naultinus elegans", common_name := "Auckland green gecko",
    latitude := 0, longitude := 0, date := 20200115, sightingty := "Sighted" }

/-- A concrete herp record whose species is absent from the concrete
threat table. -/
def sampleHerpMissing : HerpRecord :=
  { scientific_name := "Oligosoma zelandicum", common_name := "Glossy brown skink",
    latitude := 0, longitude := 0, date := 20190320, sightingty := "Sighted" }

/-- A concrete threat entry with distinct category and status. -/
def sampleThreatEntry : ThreatEntry :=
  { currentSpeciesName := "Naultinus elegans", taxa := "Reptile",
    category := "At Risk", status := "Declining" }

/-- A concrete threat entry with equal category and status. -/
def sampleThreatEqual : ThreatEntry :=
  { currentSpeciesName := "Leiopelma hochstetteri", taxa := "Amphibian",
    category := "Threatened", status := "Threatened" }

/-- The concrete rows of a one-species herp query. -/
def sampleHerpRows : List HerpRow :=
  List.insertionSort rowLE ((uniqueSpeciesInRadius constDist [sampleHerpRecord] 25).map
    (herpSummaryRow constDist constDir [sampleThreatEntry] [sampleHerpRecord]
      (radiusFilter (hdist constDist) [sampleHerpRecord] 25)))

/-- Witness for C4 at a concrete one-species query. -/
theorem herp_rows_sorted_by_composite_witness :
    sampleHerpRows.Pairwise herpCompositeLE ∧
    taxa_order.indexOf "Reptile" < taxa_order.indexOf "Bird" := by
  have h := herp_rows_sorted_by_composite constDist constDir [sampleThreatEntry]
    [sampleHerpRecord] 25 sampleHerpRows 1 (by decide)
  exact ⟨h.1, h.2.1 "Bird" (by decide) "Reptile" (by decide)⟩

/-- The best-effort threat join: a species absent from the threat table
gets the "unknown" sentinel in all four threat-derived fields. -/
lemma herpSummaryRow_missing_fields (dist : ℚ × ℚ → ℚ) (dirOf : ℚ × ℚ → String)
    (threat : List ThreatEntry) (df radius_df : List HerpRecord) (s : String)
    (hmiss : threat.find? (fun e => decide (e.currentSpeciesName = s)) = none) :
    (herpSummaryRow dist dirOf threat df radius_df s).taxa_group = "unknown" ∧
    (herpSummaryRow dist dirOf threat df radius_df s).category_for_sort = "unknown" ∧
    (herpSummaryRow dist dirOf threat df radius_df s).status_for_sort = "unknown" ∧
    (herpSummaryRow dist dirOf threat df radius_df s).threat_status_display = "unknown" := by
  simp [herpSummaryRow, hmiss]

/-- A listed non-"unknown" category sorts strictly before the trailing
"unknown" slot (index 6). -/
lemma indexOf_listed_category_lt (v : String) (hv : v ∈ category_order)
    (hne : v ≠ "unknown") : category_order.indexOf v < 6 := by
  fin_cases hv
  · decide
  · decide
  · decide
  · decide
  · decide
  · decide
  · exact absurd rfl hne

/-- Every listed taxa group has sort index at most 2 (the "unknown"
slot). -/
lemma indexOf_listed_taxa_le (v : String) (hv : v ∈ taxa_order) :
    taxa_order.indexOf v ≤ 2 := by
  fin_cases hv
  · decide
  · decide
  · decide

/-- C5: a herp species within radius whose scientific name has no exact
match in the threat-status table does not fail the query: its row gets
taxa group, category, status and `threat_status_display` all "unknown",
and in the sorted output it appears strictly after every row whose taxa
group is listed and whose threat category is a recognized listed value
(other than the "unknown" sentinel). -/
theorem herp_missing_threat_unknown_and_last (dist : ℚ × ℚ → ℚ) (dirOf : ℚ × ℚ → String)
    (threat : List ThreatEntry) (df : List HerpRecord) (radius_km : ℤ)
    (rows : List HerpRow) (n : ℕ)
    (h : process_herpetofauna_data dist dirOf threat df radius_km = HerpResult.results rows n)
    (row : HerpRow) (hrow : row ∈ rows)
    (hmiss : threat.find? (fun e => decide (e.currentSpeciesName = row.species)) = none) :
    (row.taxa_group = "unknown" ∧ row.category_for_sort = "unknown" ∧
     row.status_for_sort = "unknown" ∧ row.threat_status_display = "unknown") ∧
    (∀ row2 ∈ rows, row2.taxa_group ∈ taxa_order →
      row2.category_for_sort ∈ category_order → row2.category_for_sort ≠ "unknown" →
      ∀ i j : Fin rows.length, rows.get i = row → rows.get j = row2 →
        (j : ℕ) < (i : ℕ)) := by
  obtain ⟨s, hseq⟩ := mem_rows_eq_summaryRow dist dirOf threat df radius_km rows n h row hrow
  subst hseq
  have hm2 : threat.find? (fun e => decide (e.currentSpeciesName = s)) = none := hmiss
  have hfields := herpSummaryRow_missing_fields dist dirOf threat df
    (radiusFilter (hdist dist) df (radius_km : ℚ)) s hm2
  refine ⟨hfields, ?_⟩
  intro row2 hrow2 htaxa hcat hcatne i j hi hj
  set row' := herpSummaryRow dist dirOf threat df
    (radiusFilter (hdist dist) df (radius_km : ℚ)) s with hrowdef
  have h1 : taxaKey row' = 2 := by
    unfold taxaKey
    rw [hfields.1]
    decide
  have h2 : catKey row' = 6 := by
    unfold catKey
    rw [hfields.2.1]
    decide
  have h3 : taxaKey row2 ≤ 2 := indexOf_listed_taxa_le _ htaxa
  have h4 : catKey row2 < 6 := indexOf_listed_category_lt _ hcat hcatne
  have hk : rowKey row2 < rowKey row' := by
    unfold rowKey
    rw [Prod.Lex.lt_iff]
    rcases Nat.lt_or_ge (taxaKey row2) (taxaKey row') with hlt | hge
    · exact Or.inl hlt
    · refine Or.inr ⟨le_antisymm (h1 ▸ h3) hge, ?_⟩
      rw [Prod.Lex.lt_iff]
      exact Or.inl (by rw [h2]; exact h4)
  have hsorted := herp_rows_sorted dist dirOf threat df radius_km rows n h
  rcases lt_trichotomy (i : ℕ) (j : ℕ) with hij | hij | hij
  · exfalso
    have hpw := List.pairwise_iff_get.mp hsorted i j hij
    rw [hi, hj] at hpw
    have hle : rowKey row' ≤ rowKey row2 := hpw
    exact lt_irrefl _ (lt_of_le_of_lt hle hk)
  · exfalso
    have hij2 : i = j := Fin.ext hij
    rw [hij2, hj] at hi
    exact hcatne (by rw [hi]; exact hfields.2.1)
  · exact hij

/-- A two-species concrete herp dataset: one species present in the
concrete threat table, one absent. -/
def sampleHerpDf : List HerpRecord := [sampleHerpRecord, sampleHerpMissing]

/-- The concrete rows of the two-species query. -/
def sampleRowsTwo : List HerpRow :=
  List.insertionSort rowLE ((uniqueSpeciesInRadius constDist sampleHerpDf 25).map
    (herpSummaryRow constDist constDir [sampleThreatEntry] sampleHerpDf
      (radiusFilter (hdist constDist) sampleHerpDf 25)))

/-- The concrete row of the species absent from the threat table. -/
def missingRow : HerpRow :=
  herpSummaryRow constDist constDir [sampleThreatEntry] sampleHerpDf
    (radiusFilter (hdist constDist) sampleHerpDf 25) "Oligosoma zelandicum"

/-- The concrete row of the species present in the threat table. -/
def presentRow : HerpRow :=
  herpSummaryRow constDist constDir [sampleThreatEntry] sampleHerpDf
    (radiusFilter (hdist constDist) sampleHerpDf 25) "Naultinus elegans"

/-- Witness for C5 at the concrete two-species query. -/
theorem herp_missing_threat_witness :
    (missingRow.taxa_group = "unknown" ∧ missingRow.category_for_sort = "unknown" ∧
     missingRow.status_for_sort = "unknown" ∧ missingRow.threat_status_display = "unknown") ∧
    (0 : ℕ) < 1 := by
  have h := herp_missing_threat_unknown_and_last constDist constDir [sampleThreatEntry]
    sampleHerpDf 25 sampleRowsTwo 2 (by decide) missingRow (by decide) (by decide)
  refine ⟨h.1, ?_⟩
  exact h.2 presentRow (by decide) (by decide) (by decide) (by decide)
    ⟨1, by decide⟩ ⟨0, by decide⟩ (by decide) (by decide)

/-- C7: for a herp species found in the threat-status table (by first
exact match on scientific name), the displayed threat string is the
category alone when category equals status, and
`"{category} - {status}"` otherwise. -/
theorem herp_threat_display_format (dist : ℚ × ℚ → ℚ) (dirOf : ℚ × ℚ → String)
    (threat : List ThreatEntry) (df : List HerpRecord) (radius_km : ℤ)
    (rows : List HerpRow) (n : ℕ)
    (h : process_herpetofauna_data dist dirOf threat df radius_km = HerpResult.results rows n)
    (row : HerpRow) (hrow : row ∈ rows) (entry : ThreatEntry)
    (hfind : threat.find? (fun e => decide (e.currentSpeciesName = row.species)) = some entry) :
    (entry.category = entry.status → row.threat_status_display = entry.category) ∧
    (entry.category ≠ entry.status →
      row.threat_status_display = entry.category ++ " - " ++ entry.status) := by
  obtain ⟨s, hseq⟩ := mem_rows_eq_summaryRow dist dirOf threat df radius_km rows n h row hrow
  subst hseq
  have hf : threat.find? (fun e => decide (e.currentSpeciesName = s)) = some entry := hfind
  constructor
  · intro hcs
    simp [herpSummaryRow, hf, hcs]
  · intro hcs
    simp [herpSummaryRow, hf, hcs]

/-- A concrete herp record for the species with equal category and
status in the concrete threat table. -/
def frogRecord : HerpRecord :=
  { scientific_name := "Leiopelma hochstetteri", common_name := "Hochstetter frog",
    latitude := 0, longitude := 0, date := 20210210, sightingty := "Heard" }

/-- The concrete row of a query whose only species has equal threat
category and status. -/
def frogRow : HerpRow :=
  herpSummaryRow constDist constDir [sampleThreatEqual] [frogRecord]
    (radiusFilter (hdist constDist) [frogRecord] 25) "Leiopelma hochstetteri"

/-- The concrete row of a query whose only species has distinct threat
category and status. -/
def naultRow : HerpRow :=
  herpSummaryRow constDist constDir [sampleThreatEntry] [sampleHerpRecord]
    (radiusFilter (hdist constDist) [sampleHerpRecord] 25) "Naultinus elegans"

/-- Witness for C7: equal category/status displays the category alone,
distinct ones display `"{category} - {status}"`. -/
theorem herp_threat_display_witness :
    frogRow.threat_status_display = "Threatened" ∧
    naultRow.threat_status_display = "At Risk - Declining" := by
  have h1 := herp_threat_display_format constDist constDir [sampleThreatEqual] [frogRecord] 25
    [frogRow] 1 (by decide) frogRow (by decide) sampleThreatEqual (by decide)
  have h2 := herp_threat_display_format constDist constDir [sampleThreatEntry]
    [sampleHerpRecord] 25 [naultRow] 1 (by decide) naultRow (by decide) sampleThreatEntry
    (by decide)
  constructor
  · rw [h1.1 (by decide)]
    rfl
  · rw [h2.2 (by decide)]
    rfl

/-- `firstOccurrences` returns the empty list exactly on the empty
list. -/
lemma firstOccurrences_eq_nil_iff (l : List String) : firstOccurrences l = [] ↔ l = [] := by
  cases l with
  | nil => simp [firstOccurrences, firstOccurrencesAux]
  | cons t ts => simp [firstOccurrences, firstOccurrencesAux]

/-- The unique-species list is empty exactly when no record lies within
the radius. -/
lemma uniqueSpecies_nil_iff (dist : ℚ × ℚ → ℚ) (df : List HerpRecord) (radius_km : ℤ) :
    uniqueSpeciesInRadius dist df radius_km = [] ↔
      radiusFilter (hdist dist) df (radius_km : ℚ) = [] := by
  unfold uniqueSpeciesInRadius
  constructor
  · intro h
    have hp := List.perm_insertionSort (fun a b : String => a.data ≤ b.data)
      (firstOccurrences
        ((radiusFilter (hdist dist) df (radius_km : ℚ)).map HerpRecord.scientific_name))
    rw [h] at hp
    have h2 := (hp.symm).eq_nil
    rw [firstOccurrences_eq_nil_iff] at h2
    exact List.map_eq_nil_iff.mp h2
  · intro h
    rw [h]
    rfl

/-- C8: when no record lies within the radius the herp summarizer
returns the descriptive zero-result message with a zero unique-species
count rather than an error; when at least one record lies within the
radius it returns the sorted species rows together with the (positive)
unique-species count, with one row per unique in-radius species. -/
theorem herp_zero_and_nonzero_results (dist : ℚ × ℚ → ℚ) (dirOf : ℚ × ℚ → String)
    (threat : List ThreatEntry) (df : List HerpRecord) (radius_km : ℤ) :
    (radiusFilter (hdist dist) df (radius_km : ℚ) = [] →
      process_herpetofauna_data dist dirOf threat df radius_km =
        HerpResult.noRecords
          ("No herpetofauna records found within " ++ toString radius_km ++ " km.") 0) ∧
    (radiusFilter (hdist dist) df (radius_km : ℚ) ≠ [] →
      ∃ rows, process_herpetofauna_data dist dirOf threat df radius_km =
          HerpResult.results rows (uniqueSpeciesInRadius dist df radius_km).length ∧
        0 < (uniqueSpeciesInRadius dist df radius_km).length ∧
        (rows.map HerpRow.species).Perm (uniqueSpeciesInRadius dist df radius_km) ∧
        rows.Pairwise herpCompositeLE) := by
  constructor
  · intro he
    have hu : uniqueSpeciesInRadius dist df radius_km = [] :=
      (uniqueSpecies_nil_iff dist df radius_km).mpr he
    simp only [process_herpetofauna_data]
    rw [hu]
    rfl
  · intro hne
    have hu : uniqueSpeciesInRadius dist df radius_km ≠ [] :=
      fun hh => hne ((uniqueSpecies_nil_iff dist df radius_km).mp hh)
    refine ⟨List.insertionSort rowLE ((uniqueSpeciesInRadius dist df radius_km).map
      (herpSummaryRow dist dirOf threat df (radiusFilter (hdist dist) df (radius_km : ℚ)))),
      ?_, ?_, ?_, ?_⟩
    · simp only [process_herpetofauna_data]
      rw [if_neg (by simpa [List.isEmpty_iff] using hu)]
    · exact List.length_pos.mpr hu
    · have hmapid : ∀ l : List String,
          (l.map (herpSummaryRow dist dirOf threat df
            (radiusFilter (hdist dist) df (radius_km : ℚ)))).map HerpRow.species = l := by
        intro l
        induction l with
        | nil => rfl
        | cons a t ih =>
          simp only [List.map_cons, ih]
          rfl
      have hp := (List.perm_insertionSort rowLE
        ((uniqueSpeciesInRadius dist df radius_km).map
          (herpSummaryRow dist dirOf threat df
            (radiusFilter (hdist dist) df (radius_km : ℚ))))).map HerpRow.species
      rw [hmapid] at hp
      exact hp
    · exact (List.sorted_insertionSort rowLE _).imp (fun hab => (rowLE_iff _ _).mp hab)

/-- Witness for C8: the empty dataset at radius 1 yields the zero-result
message, and a dataset with one in-radius record yields a positive
unique-species count. -/
theorem herp_zero_and_nonzero_results_witness :
    process_herpetofauna_data constDist constDir [] [] 1 =
      HerpResult.noRecords "No herpetofauna records found within 1 km." 0 ∧
    0 < (uniqueSpeciesInRadius constDist [sampleHerpRecord] 25).length := by
  constructor
  · exact (herp_zero_and_nonzero_results constDist constDir [] [] 1).1 rfl
  · obtain ⟨rows, -, h2, -, -⟩ := (herp_zero_and_nonzero_results constDist constDir
      [sampleThreatEntry] [sampleHerpRecord] 25).2 (by decide)
    exact h2

/-- The eight-sector if-chain of `calculate_direction` (source lines
494-511), taken over the rationals as a function of the normalized
bearing. -/
def calculate_direction_from_bearing (bearing : ℚ) : String :=
  if (337.5 ≤ bearing ∧ bearing < 360) ∨ (0 ≤ bearing ∧ bearing < 22.5) then "north"
  else if 22.5 ≤ bearing ∧ bearing < 67.5 then "northeast"
  else if 67.5 ≤ bearing ∧ bearing < 112.5 then "east"
  else if 112.5 ≤ bearing ∧ bearing < 157.5 then "southeast"
  else if 157.5 ≤ bearing ∧ bearing < 202.5 then "south"
  else if 202.5 ≤ bearing ∧ bearing < 247.5 then "southwest"
  else if 247.5 ≤ bearing ∧ bearing < 292.5 then "west"
  else if 292.5 ≤ bearing ∧ bearing < 337.5 then "northwest"
  else "unknown"

/-- The bearing normalization `(initial_bearing + 360) % 360` (source
line 492); Python's float modulo takes the sign of the divisor, which is
`x - 360 * floor(x / 360)`. -/
def normalize_bearing (b : ℚ) : ℚ := (b + 360) - 360 * ⌊(b + 360) / 360⌋

/-- The spec-side sector map, stated from the spec's words: eight
contiguous 45-degree sectors with lower-inclusive/upper-exclusive
boundaries at odd multiples of 22.5 degrees, the wraparound sector
`[337.5, 360)` mapping back to "north"; for comparison with
`calculate_direction_from_bearing`. -/
def bearing_sector_spec (b : ℚ) : String :=
  if b < 22.5 then "north"
  else if b < 67.5 then "northeast"
  else if b < 112.5 then "east"
  else if b < 157.5 then "southeast"
  else if b < 202.5 then "south"
  else if b < 247.5 then "southwest"
  else if b < 292.5 then "west"
  else if b < 337.5 then "northwest"
  else "north"

lemma direction_north_low (b : ℚ) (h0 : 0 ≤ b) (h : b < 22.5) :
    calculate_direction_from_bearing b = "north" := by
  unfold calculate_direction_from_bearing
  rw [if_pos (Or.inr ⟨h0, h⟩)]

lemma direction_north_high (b : ℚ) (h1 : 337.5 ≤ b) (h2 : b < 360) :
    calculate_direction_from_bearing b = "north" := by
  unfold calculate_direction_from_bearing
  rw [if_pos (Or.inl ⟨h1, h2⟩)]

lemma direction_northeast (b : ℚ) (h1 : 22.5 ≤ b) (h2 : b < 67.5) :
    calculate_direction_from_bearing b = "northeast" := by
  have n1 : ¬((337.5 ≤ b ∧ b < 360) ∨ (0 ≤ b ∧ b < 22.5)) := by
    rintro (⟨a, c⟩ | ⟨a, c⟩) <;> linarith
  unfold calculate_direction_from_bearing
  rw [if_neg n1, if_pos ⟨h1, h2⟩]

lemma direction_east (b : ℚ) (h1 : 67.5 ≤ b) (h2 : b < 112.5) :
    calculate_direction_from_bearing b = "east" := by
  have n1 : ¬((337.5 ≤ b ∧ b < 360) ∨ (0 ≤ b ∧ b < 22.5)) := by
    rintro (⟨a, c⟩ | ⟨a, c⟩) <;> linarith
  have n2 : ¬(22.5 ≤ b ∧ b < 67.5) := by rintro ⟨a, c⟩; linarith
  unfold calculate_direction_from_bearing
  rw [if_neg n1, if_neg n2, if_pos ⟨h1, h2⟩]

lemma direction_southeast (b : ℚ) (h1 : 112.5 ≤ b) (h2 : b < 157.5) :
    calculate_direction_from_bearing b = "southeast" := by
  have n1 : ¬((337.5 ≤ b ∧ b < 360) ∨ (0 ≤ b ∧ b < 22.5)) := by
    rintro (⟨a, c⟩ | ⟨a, c⟩) <;> linarith
  have n2 : ¬(22.5 ≤ b ∧ b < 67.5) := by rintro ⟨a, c⟩; linarith
  have n3 : ¬(67.5 ≤ b ∧ b < 112.5) := by rintro ⟨a, c⟩; linarith
  unfold calculate_direction_from_bearing
  rw [if_neg n1, if_neg n2, if_neg n3, if_pos ⟨h1, h2⟩]

lemma direction_south (b : ℚ) (h1 : 157.5 ≤ b) (h2 : b < 202.5) :
    calculate_direction_from_bearing b = "south" := by
  have n1 : ¬((337.5 ≤ b ∧ b < 360) ∨ (0 ≤ b ∧ b < 22.5)) := by
    rintro (⟨a, c⟩ | ⟨a, c⟩) <;> linarith
  have n2 : ¬(22.5 ≤ b ∧ b < 67.5) := by rintro ⟨a, c⟩; linarith
  have n3 : ¬(67.5 ≤ b ∧ b < 112.5) := by rintro ⟨a, c⟩; linarith
  have n4 : ¬(112.5 ≤ b ∧ b < 157.5) := by rintro ⟨a, c⟩; linarith
  unfold calculate_direction_from_bearing
  rw [if_neg n1, if_neg n2, if_neg n3, if_neg n4, if_pos ⟨h1, h2⟩]

lemma direction_southwest (b : ℚ) (h1 : 202.5 ≤ b) (h2 : b < 247.5) :
    calculate_direction_from_bearing b = "southwest" := by
  have n1 : ¬((337.5 ≤ b ∧ b < 360) ∨ (0 ≤ b ∧ b < 22.5)) := by
    rintro (⟨a, c⟩ | ⟨a, c⟩) <;> linarith
  have n2 : ¬(22.5 ≤ b ∧ b < 67.5) := by rintro ⟨a, c⟩; linarith
  have n3 : ¬(67.5 ≤ b ∧ b < 112.5) := by rintro ⟨a, c⟩; linarith
  have n4 : ¬(112.5 ≤ b ∧ b < 157.5) := by rintro ⟨a, c⟩; linarith
  have n5 : ¬(157.5 ≤ b ∧ b < 202.5) := by rintro ⟨a, c⟩; linarith
  unfold calculate_direction_from_bearing
  rw [if_neg n1, if_neg n2, if_neg n3, if_neg n4, if_neg n5, if_pos ⟨h1, h2⟩]

lemma direction_west (b : ℚ) (h1 : 247.5 ≤ b) (h2 : b < 292.5) :
    calculate_direction_from_bearing b = "west" := by
  have n1 : ¬((337.5 ≤ b ∧ b < 360) ∨ (0 ≤ b ∧ b < 22.5)) := by
    rintro (⟨a, c⟩ | ⟨a, c⟩) <;> linarith
  have n2 : ¬(22.5 ≤ b ∧ b < 67.5) := by rintro ⟨a, c⟩; linarith
  have n3 : ¬(67.5 ≤ b ∧ b < 112.5) := by rintro ⟨a, c⟩; linarith
  have n4 : ¬(112.5 ≤ b ∧ b < 157.5) := by rintro ⟨a, c⟩; linarith
  have n5 : ¬(157.5 ≤ b ∧ b < 202.5) := by rintro ⟨a, c⟩; linarith
  have n6 : ¬(202.5 ≤ b ∧ b < 247.5) := by rintro ⟨a, c⟩; linarith
  unfold calculate_direction_from_bearing
  rw [if_neg n1, if_neg n2, if_neg n3, if_neg n4, if_neg n5, if_neg n6, if_pos ⟨h1, h2⟩]

lemma direction_northwest (b : ℚ) (h1 : 292.5 ≤ b) (h2 : b < 337.5) :
    calculate_direction_from_bearing b = "northwest" := by
  have n1 : ¬((337.5 ≤ b ∧ b < 360) ∨ (0 ≤ b ∧ b < 22.5)) := by
    rintro (⟨a, c⟩ | ⟨a, c⟩) <;> linarith
  have n2 : ¬(22.5 ≤ b ∧ b < 67.5) := by rintro ⟨a, c⟩; linarith
  have n3 : ¬(67.5 ≤ b ∧ b < 112.5) := by rintro ⟨a, c⟩; linarith
  have n4 : ¬(112.5 ≤ b ∧ b < 157.5) := by rintro ⟨a, c⟩; linarith
  have n5 : ¬(157.5 ≤ b ∧ b < 202.5) := by rintro ⟨a, c⟩; linarith
  have n6 : ¬(202.5 ≤ b ∧ b < 247.5) := by rintro ⟨a, c⟩; linarith
  have n7 : ¬(247.5 ≤ b ∧ b < 292.5) := by rintro ⟨a, c⟩; linarith
  unfold calculate_direction_from_bearing
  rw [if_neg n1, if_neg n2, if_neg n3, if_neg n4, if_neg n5, if_neg n6, if_neg n7,
    if_pos ⟨h1, h2⟩]

/-- On `[0, 360)` the source's if-chain agrees with the spec's sector
map. -/
lemma direction_eq_spec (b : ℚ) (h0 : 0 ≤ b) (h1 : b < 360) :
    calculate_direction_from_bearing b = bearing_sector_spec b := by
  unfold bearing_sector_spec
  by_cases c1 : b < 22.5
  · rw [direction_north_low b h0 c1, if_pos c1]
  · rw [if_neg c1]
    by_cases c2 : b < 67.5
    · rw [direction_northeast b (le_of_not_lt c1) c2, if_pos c2]
    · rw [if_neg c2]
      by_cases c3 : b < 112.5
      · rw [direction_east b (le_of_not_lt c2) c3, if_pos c3]
      · rw [if_neg c3]
        by_cases c4 : b < 157.5
        · rw [direction_southeast b (le_of_not_lt c3) c4, if_pos c4]
        · rw [if_neg c4]
          by_cases c5 : b < 202.5
          · rw [direction_south b (le_of_not_lt c4) c5, if_pos c5]
          · rw [if_neg c5]
            by_cases c6 : b < 247.5
            · rw [direction_southwest b (le_of_not_lt c5) c6, if_pos c6]
            · rw [if_neg c6]
              by_cases c7 : b < 292.5
              · rw [direction_west b (le_of_not_lt c6) c7, if_pos c7]
              · rw [if_neg c7]
                by_cases c8 : b < 337.5
                · rw [direction_northwest b (le_of_not_lt c7) c8, if_pos c8]
                · rw [if_neg c8, direction_north_high b (le_of_not_lt c8) h1]

/-- C3: on valid normalized bearings the classification partitions
`[0, 360)` into exactly the eight 45-degree sectors with
lower-inclusive/upper-exclusive boundaries at odd multiples of 22.5
degrees (it agrees pointwise with the spec-side sector map); bearing
22.5 maps to "northeast" and bearing 0 to "north"; `[337.5, 360)` maps
to "north"; the "unknown" fallback is unreachable on `[0, 360)`; and
the normalization places every bearing in `[0, 360)`. -/
theorem calculate_direction_sectors (b q : ℚ) (h0 : 0 ≤ b) (h1 : b < 360) :
    calculate_direction_from_bearing b = bearing_sector_spec b ∧
    calculate_direction_from_bearing b ≠ "unknown" ∧
    calculate_direction_from_bearing (22.5 : ℚ) = "northeast" ∧
    calculate_direction_from_bearing 0 = "north" ∧
    (337.5 ≤ b → calculate_direction_from_bearing b = "north") ∧
    0 ≤ normalize_bearing q ∧ normalize_bearing q < 360 := by
  have hmain := direction_eq_spec b h0 h1
  have hnorm : 0 ≤ normalize_bearing q ∧ normalize_bearing q < 360 := by
    unfold normalize_bearing
    have hfl : ((⌊(q + 360) / 360⌋ : ℤ) : ℚ) ≤ (q + 360) / 360 := Int.floor_le _
    have hfu : (q + 360) / 360 < (⌊(q + 360) / 360⌋ : ℤ) + 1 := Int.lt_floor_add_one _
    have hxe : (q + 360) / 360 * 360 = q + 360 := div_mul_cancel₀ _ (by norm_num)
    have l1 : ((⌊(q + 360) / 360⌋ : ℤ) : ℚ) * 360 ≤ (q + 360) / 360 * 360 :=
      mul_le_mul_of_nonneg_right hfl (by norm_num)
    have l2 : (q + 360) / 360 * 360 < (((⌊(q + 360) / 360⌋ : ℤ) : ℚ) + 1) * 360 :=
      mul_lt_mul_of_pos_right hfu (by norm_num)
    constructor
    · nlinarith [l1, hxe]
    · nlinarith [l2, hxe]
  refine ⟨hmain, ?_, ?_, ?_, ?_, hnorm.1, hnorm.2⟩
  · rw [hmain]
    unfold bearing_sector_spec
    split_ifs <;> decide
  · exact direction_northeast 22.5 (by norm_num) (by norm_num)
  · exact direction_north_low 0 le_rfl (by norm_num)
  · intro hh
    exact direction_north_high b hh h1

/-- Witness for C3 at concrete bearings 100 and -500. -/
theorem calculate_direction_sectors_witness :
    calculate_direction_from_bearing (22.5 : ℚ) = "northeast" ∧
    calculate_direction_from_bearing 0 = "north" ∧
    0 ≤ normalize_bearing (-500) ∧ normalize_bearing (-500) < 360 := by
  have h := calculate_direction_sectors 100 (-500) (by norm_num) (by norm_num)
  exact ⟨h.2.2.1, h.2.2.2.1, h.2.2.2.2.2.1, h.2.2.2.2.2.2⟩

/-- Modelled from the spec: the source computes `distance_km` by calling
the external geopy library (`geodesic(user_coords, ...).km`, source
lines 516 and 621), whose implementation is not part of this repository.
Following the spec's "standard geodesic distance between two (lat, lon)
points in kilometers", the missing library function is modelled as the
great-circle distance on a sphere with the IUGG mean Earth radius. -/
noncomputable def distance_km (p1 p2 : ℝ × ℝ) : ℝ :=
  6371.0088 * Real.arccos
    (Real.sin (p1.1 * (Real.pi / 180)) * Real.sin (p2.1 * (Real.pi / 180)) +
      Real.cos (p1.1 * (Real.pi / 180)) * Real.cos (p2.1 * (Real.pi / 180)) *
        Real.cos ((p2.2 - p1.2) * (Real.pi / 180)))

lemma distance_km_self (p : ℝ × ℝ) : distance_km p p = 0 := by
  unfold distance_km
  rw [sub_self, zero_mul, Real.cos_zero, mul_one]
  have hone : Real.sin (p.1 * (Real.pi / 180)) * Real.sin (p.1 * (Real.pi / 180)) +
      Real.cos (p.1 * (Real.pi / 180)) * Real.cos (p.1 * (Real.pi / 180)) = 1 := by
    have := Real.sin_sq_add_cos_sq (p.1 * (Real.pi / 180))
    nlinarith [this]
  rw [hone, Real.arccos_one, mul_zero]

lemma distance_km_comm (a b : ℝ × ℝ) : distance_km a b = distance_km b a := by
  unfold distance_km
  have h1 : Real.cos ((a.2 - b.2) * (Real.pi / 180)) =
      Real.cos ((b.2 - a.2) * (Real.pi / 180)) := by
    rw [show (a.2 - b.2) * (Real.pi / 180) = -((b.2 - a.2) * (Real.pi / 180)) by ring,
      Real.cos_neg]
  rw [h1]
  ring_nf

lemma distance_km_nonneg (a b : ℝ × ℝ) : 0 ≤ distance_km a b := by
  unfold distance_km
  exact mul_nonneg (by norm_num) (Real.arccos_nonneg _)

/-- C9: the modelled `distance_km` vanishes on equal points, is
symmetric, and is never negative. -/
theorem distance_km_metric_properties (p a b : ℝ × ℝ) :
    distance_km p p = 0 ∧ distance_km a b = distance_km b a ∧ 0 ≤ distance_km a b :=
  ⟨distance_km_self p, distance_km_comm a b, distance_km_nonneg a b⟩

section
open scoped Classical

/-- `calculate_direction` (source lines 477-511) over the reals: the
initial great-circle bearing from spherical trigonometry via `atan2`
(modelled by `Complex.arg`, which like `math.atan2` maps `(0, 0)` to
0), converted to degrees, normalized to `[0, 360)` by the float modulo
`(initial_bearing + 360) % 360`, then classified by the eight-sector
if-chain. -/
noncomputable def calculate_direction (user_coords record_coords : ℝ × ℝ) : String :=
  let lat1 := user_coords.1 * (Real.pi / 180)
  let lon1 := user_coords.2 * (Real.pi / 180)
  let lat2 := record_coords.1 * (Real.pi / 180)
  let lon2 := record_coords.2 * (Real.pi / 180)
  let delta_lon := lon2 - lon1
  let y := Real.sin delta_lon * Real.cos lat2
  let x := Real.cos lat1 * Real.sin lat2 - Real.sin lat1 * Real.cos lat2 * Real.cos delta_lon
  let initial_bearing := Complex.arg ⟨x, y⟩ * (180 / Real.pi)
  let bearing := (initial_bearing + 360) - 360 * ⌊(initial_bearing + 360) / 360⌋
  if (337.5 ≤ bearing ∧ bearing < 360) ∨ (0 ≤ bearing ∧ bearing < 22.5) then "north"
  else if 22.5 ≤ bearing ∧ bearing < 67.5 then "northeast"
  else if 67.5 ≤ bearing ∧ bearing < 112.5 then "east"
  else if 112.5 ≤ bearing ∧ bearing < 157.5 then "southeast"
  else if 157.5 ≤ bearing ∧ bearing < 202.5 then "south"
  else if 202.5 ≤ bearing ∧ bearing < 247.5 then "southwest"
  else if 247.5 ≤ bearing ∧ bearing < 292.5 then "west"
  else if 292.5 ≤ bearing ∧ bearing < 337.5 then "northwest"
  else "unknown"

end

/-- C10: when the target point equals the query origin the bearing
computation yields `atan2(0, 0) = 0`, which normalizes to 0 and falls
in the north sector, so the direction is "north"; combined with the
one-decimal distance rendering of the zero distance, such a record is
reported as "0.0 km north", and the modelled distance at the origin is
indeed 0. -/
theorem direction_at_origin (u : ℝ × ℝ) :
    calculate_direction u u = "north" ∧
    formatKm 0 ++ " km " ++ calculate_direction u u = "0.0 km north" ∧
    distance_km u u = 0 := by
  have hmain : calculate_direction u u = "north" := by
    simp only [calculate_direction]
    have hy : Real.sin (u.2 * (Real.pi / 180) - u.2 * (Real.pi / 180)) *
        Real.cos (u.1 * (Real.pi / 180)) = 0 := by
      rw [sub_self, Real.sin_zero, zero_mul]
    have hx : Real.cos (u.1 * (Real.pi / 180)) * Real.sin (u.1 * (Real.pi / 180)) -
        Real.sin (u.1 * (Real.pi / 180)) * Real.cos (u.1 * (Real.pi / 180)) *
        Real.cos (u.2 * (Real.pi / 180) - u.2 * (Real.pi / 180)) = 0 := by
      rw [sub_self, Real.cos_zero, mul_one]
      ring
    rw [hx, hy]
    have harg : (⟨0, 0⟩ : ℂ) = 0 := rfl
    rw [harg, Complex.arg_zero, zero_mul]
    have hfloor : ⌊((0 : ℝ) + 360) / 360⌋ = 1 := by norm_num
    rw [hfloor]
    norm_num
  refine ⟨hmain, ?_, distance_km_self u⟩
  rw [hmain]
  decide

end Bioweb
